import Mathlib

/-!
Verification of the `mcp-qbittorrent` repository: a shallow embedding of the
qBittorrent Web API client (`src/mcp_qbittorrent/clients/qbittorrent_client.py`)
and the FastMCP tool layer (`src/mcp_qbittorrent/tools/qbittorrent_tools.py`).

HTTP traffic is modelled by a script of outcomes consumed in order; every
request the client issues is logged as an event, so theorems can speak about
how many network calls an operation makes and with which method, endpoint,
form data and query parameters.
-/

namespace McpQB

/-- A JSON-like value, the shape of parsed response bodies. -/
inductive JValue where
  | jnull
  | jbool (b : Bool)
  | jnum (n : Int)
  | jstr (s : String)
  | jarr (xs : List JValue)
  | jobj (fields : List (String × JValue))

/-- A value sent in form data or query parameters.  The Python client sends
either strings or integers; booleans are always encoded as the literal
strings "true"/"false" before they reach a request. -/
inductive FormVal where
  | s (v : String)
  | i (v : Int)
deriving DecidableEq, Repr

/-- One HTTP request as issued by the client: method, endpoint path,
form data (POST body) and query parameters, in insertion order. -/
structure Request where
  method : String
  endpoint : String
  data : List (String × FormVal)
  params : List (String × FormVal)
deriving DecidableEq, Repr

/-- An observable event of a client run: a network call, or a sleep of the
poll loop (`asyncio.sleep`). -/
inductive Event where
  | call (r : Request)
  | sleepFor (n : Nat)
deriving DecidableEq, Repr

/-- What the network returns for one request: an HTTP response with status,
body text and (when the Content-Type is application/json) a parsed JSON
body, or a transport-level failure (`aiohttp.ClientError`: connection
refused, DNS failure, timeout …). -/
inductive HttpOutcome where
  | resp (status : Nat) (text : String) (json : Option JValue)
  | transport (msg : String)

/-- The errors the client raises.  `attributeError` models Python's
`AttributeError`, raised when a tool accesses a method the
`QBittorrentClient` class does not define. -/
inductive QBErr where
  | authenticationError (msg : String)
  | apiError (msg : String)
  | attributeError (msg : String)
deriving DecidableEq, Repr

/-- Computes `str(e)` on a raised error: the message carried by the exception. -/
def QBErr.message : QBErr → String
  | .authenticationError m => m
  | .apiError m => m
  | .attributeError m => m

/-- The session-relevant state of a `QBittorrentClient` instance:
`authenticated` is `self._authenticated`, `hasSession` is
`self.session is not None`. -/
structure ClientState where
  authenticated : Bool
  hasSession : Bool
deriving DecidableEq, Repr

/-- State of a fresh client right after `__init__`. -/
def initialClientState : ClientState := ⟨false, false⟩

/-- The full state of a client run: client fields, the script of pending
network outcomes, and the log of events issued so far. -/
structure RunState where
  cs : ClientState
  script : List HttpOutcome
  events : List Event

/-- A client computation: it may raise a `QBErr` and threads the run state. -/
def ClientM (α : Type) := RunState → Except QBErr α × RunState

/-- Sequencing of client computations (a raised error aborts the rest). -/
def mbind {α β : Type} (x : ClientM α) (f : α → ClientM β) : ClientM β := fun s =>
  match x s with
  | (Except.ok a, s1) => f a s1
  | (Except.error e, s1) => (Except.error e, s1)

/-- A pure result. -/
def mpure {α : Type} (a : α) : ClientM α := fun s => (Except.ok a, s)

/-- Raise an error. -/
def throwE {α : Type} (e : QBErr) : ClientM α := fun s => (Except.error e, s)

/-- Embeds `asyncio.sleep(n)`: no network traffic, logged as an event. -/
def sleepM (n : Nat) : ClientM Unit := fun s =>
  (Except.ok (), { s with events := s.events ++ [Event.sleepFor n] })

/-- Run a computation and discard its outcome, keeping its state effects:
`try: ... except: pass` around a best-effort cleanup step. -/
def tryIgnore {α : Type} (m : ClientM α) : ClientM Unit := fun s =>
  (Except.ok (), (m s).2)

/-- Embeds `QBittorrentClient._request(method, endpoint, data, params)`, the
authenticated request primitive.  Faithful to the source: it first checks
`self._authenticated` and raises an authentication error without touching
the network; otherwise it issues the request (logged as an event, consuming
the next scripted outcome), then maps status 403 to an authentication
error, any other status ≥ 400 to an API error carrying status and body
text, and a transport error to a generic API error; on success it returns
the parsed JSON body when the Content-Type is application/json, the raw
text otherwise.  An exhausted script is modelled as a transport failure. -/
def request (method endpoint : String)
    (data params : List (String × FormVal)) : ClientM JValue := fun s =>
  if s.cs.authenticated = false then
    (Except.error (QBErr.authenticationError "Not authenticated. Call login() first."), s)
  else
    match s.script with
    | [] =>
      (Except.error (QBErr.apiError "Request error: no response"),
       { s with events := s.events ++ [Event.call ⟨method, endpoint, data, params⟩] })
    | o :: rest =>
      let s1 : RunState :=
        { s with script := rest,
                 events := s.events ++ [Event.call ⟨method, endpoint, data, params⟩] }
      match o with
      | HttpOutcome.transport m =>
        (Except.error (QBErr.apiError ("Request error: " ++ m)), s1)
      | HttpOutcome.resp status text json =>
        if status = 403 then
          (Except.error (QBErr.authenticationError "Authentication token expired or invalid"), s1)
        else if 400 ≤ status then
          (Except.error (QBErr.apiError
            ("API request failed: " ++ toString status ++ " - " ++ text)), s1)
        else
          match json with
          | some v => (Except.ok v, s1)
          | none => (Except.ok (JValue.jstr text), s1)

/-- What the network returns to the login POST (login bypasses `_request`
and posts directly on the session). -/
inductive LoginOutcome where
  | resp (status : Nat) (text : String)
  | transport (msg : String)

/-- Embeds `QBittorrentClient.login()`.  Creates the HTTP session if absent, then
POSTs the credentials; success is exactly status 200 with body "Ok.", which
sets `_authenticated`; any other combination raises an authentication
error, as does a transport failure (`aiohttp.ClientError`). -/
def login (cs : ClientState) (o : LoginOutcome) : Except QBErr Unit × ClientState :=
  let cs1 : ClientState := { cs with hasSession := true }
  match o with
  | LoginOutcome.transport m =>
    (Except.error (QBErr.authenticationError ("Connection error during authentication: " ++ m)), cs1)
  | LoginOutcome.resp status text =>
    if status ≠ 200 ∨ text ≠ "Ok." then
      (Except.error (QBErr.authenticationError
        ("Authentication failed: " ++ toString status ++ " - " ++ text)), cs1)
    else
      (Except.ok (), { cs1 with authenticated := true })

/-- Embeds `QBittorrentClient.close()`: if a session exists, close it and clear
both the session and the authenticated flag; otherwise a no-op. -/
def close (cs : ClientState) : ClientState :=
  if cs.hasSession then ⟨false, false⟩ else cs

/-- Embeds `if v: d[key] = v` on an optional string: the key is added only
when the value is present and non-empty (Python truthiness on
`Optional[str]`). -/
def optStrEntry (key : String) (v : Option String) : List (String × FormVal) :=
  match v with
  | some x => if x = "" then [] else [(key, FormVal.s x)]
  | none => []

/-- Params built by `get_torrent_list`: optional `filter` then `category`,
each added only when truthy. -/
def torrentListParams (filter category : Option String) : List (String × FormVal) :=
  optStrEntry "filter" filter ++ optStrEntry "category" category

/-- Embeds `QBittorrentClient.get_torrent_list(filter, category)`. -/
def get_torrent_list (filter category : Option String) : ClientM JValue :=
  request "GET" "/api/v2/torrents/info" [] (torrentListParams filter category)

/-- Embeds `QBittorrentClient.get_torrent_properties(hash)`. -/
def get_torrent_properties (hash : String) : ClientM JValue :=
  request "GET" "/api/v2/torrents/properties" [] [("hash", FormVal.s hash)]

/-- Embeds `QBittorrentClient.get_torrent_files(hash)`. -/
def get_torrent_files (hash : String) : ClientM JValue :=
  request "GET" "/api/v2/torrents/files" [] [("hash", FormVal.s hash)]

/-- Form data built by `add_torrent`: optional `urls`, `savepath`,
`category` each added only when truthy, and `paused` sent as the literal
string "true" only when the flag is set. -/
def addTorrentData (urls savepath category : Option String) (paused : Bool) :
    List (String × FormVal) :=
  optStrEntry "urls" urls ++ optStrEntry "savepath" savepath ++
    optStrEntry "category" category ++
    (if paused then [("paused", FormVal.s "true")] else [])

/-- Embeds `QBittorrentClient.add_torrent(urls, torrents, savepath, category, paused)`.
The `torrents` bytes argument is accepted by the source but never placed in
the form data, so it is omitted here. -/
def add_torrent (urls savepath category : Option String) (paused : Bool) : ClientM JValue :=
  request "POST" "/api/v2/torrents/add" (addTorrentData urls savepath category paused) []

/-- Embeds `QBittorrentClient.pause_torrent(hashes)`. -/
def pause_torrent (hashes : String) : ClientM JValue :=
  request "POST" "/api/v2/torrents/pause" [("hashes", FormVal.s hashes)] []

/-- Embeds `QBittorrentClient.resume_torrent(hashes)`. -/
def resume_torrent (hashes : String) : ClientM JValue :=
  request "POST" "/api/v2/torrents/resume" [("hashes", FormVal.s hashes)] []

/-- Form data built by `delete_torrent`: the hash list and `deleteFiles`
always sent as exactly one of the literal strings "true"/"false". -/
def deleteTorrentData (hashes : String) (delete_files : Bool) : List (String × FormVal) :=
  [("hashes", FormVal.s hashes),
   ("deleteFiles", FormVal.s (if delete_files then "true" else "false"))]

/-- Embeds `QBittorrentClient.delete_torrent(hashes, delete_files)`. -/
def delete_torrent (hashes : String) (delete_files : Bool) : ClientM JValue :=
  request "POST" "/api/v2/torrents/delete" (deleteTorrentData hashes delete_files) []

/-- Embeds `QBittorrentClient.start_search(pattern, plugins, category)`. -/
def start_search (pattern plugins category : String) : ClientM JValue :=
  request "POST" "/api/v2/search/start"
    [("pattern", FormVal.s pattern), ("plugins", FormVal.s plugins),
     ("category", FormVal.s category)] []

/-- Embeds `QBittorrentClient.get_search_status(id)`. -/
def get_search_status (id : Int) : ClientM JValue :=
  request "GET" "/api/v2/search/status" [] [("id", FormVal.i id)]

/-- Params built by `get_search_results`: `id` always, `limit` and `offset`
added only when not `None`. -/
def searchResultsParams (id : Int) (limit offset : Option Int) : List (String × FormVal) :=
  ("id", FormVal.i id) ::
    ((match limit with | some l => [("limit", FormVal.i l)] | none => []) ++
     (match offset with | some o => [("offset", FormVal.i o)] | none => []))

/-- Embeds `QBittorrentClient.get_search_results(id, limit, offset)`. -/
def get_search_results (id : Int) (limit offset : Option Int) : ClientM JValue :=
  request "GET" "/api/v2/search/results" [] (searchResultsParams id limit offset)

/-- Embeds `QBittorrentClient.stop_search(id)`. -/
def stop_search (id : Int) : ClientM JValue :=
  request "POST" "/api/v2/search/stop" [("id", FormVal.i id)] []

/-- Embeds `QBittorrentClient.delete_search(id)`. -/
def delete_search (id : Int) : ClientM JValue :=
  request "POST" "/api/v2/search/delete" [("id", FormVal.i id)] []

/-- Embeds `QBittorrentClient.get_preferences()`. -/
def get_preferences : ClientM JValue :=
  request "GET" "/api/v2/app/preferences" [] []

/-- Embeds `QBittorrentClient.get_version()`. -/
def get_version : ClientM JValue :=
  request "GET" "/api/v2/app/version" [] []

/-- The methods the `QBittorrentClient` class defines in the source file
`qbittorrent_client.py`, by name. -/
def qbittorrentClientMethods : List String :=
  ["__init__", "__aenter__", "__aexit__", "login", "close", "_request",
   "get_torrent_list", "get_torrent_properties", "get_torrent_files",
   "add_torrent", "pause_torrent", "resume_torrent", "delete_torrent",
   "start_search", "get_search_status", "get_search_results", "stop_search",
   "delete_search", "get_preferences", "get_version"]

/-- Accessing `qb_client.<name>` for a method the class does not define:
Python raises `AttributeError` at the attribute lookup, before any network
activity. -/
def missingMethodCall (name : String) : ClientM JValue :=
  throwE (QBErr.attributeError
    ("'QBittorrentClient' object has no attribute '" ++ name ++ "'"))

/-- Looks a key up in a JSON object field list. -/
def jlookup (key : String) : List (String × JValue) → Option JValue
  | [] => none
  | (k, v) :: rest => if k = key then some v else jlookup key rest

/-- Extracts the integer `id` field of the start-search response. -/
def extractId (v : JValue) : Option Int :=
  match v with
  | JValue.jobj fields =>
    match jlookup "id" fields with
    | some (JValue.jnum n) => some n
    | _ => none
  | _ => none

/-- Tests whether the first entry of a search-status response has a
`status` field equal to the literal string "Stopped". -/
def firstStatusStopped (v : JValue) : Bool :=
  match v with
  | JValue.jarr (JValue.jobj fields :: _) =>
    match jlookup "status" fields with
    | some (JValue.jstr st) => st = "Stopped"
    | _ => false
  | _ => false

/-- Modelled from the spec: the poll loop of the blocking search helper
`search_torrents`, which is not part of the sources under `src/` (the tool
layer calls it but the client class does not define it).  Each iteration
sleeps one fixed interval then GETs the job status; it stops as soon as the
first status entry's `status` equals `Stopped`, or after the given maximum
number of polls, whichever comes first, raising no error when the ceiling
is hit. -/
def pollLoop (id : Int) : Nat → ClientM Unit
  | 0 => mpure ()
  | n + 1 =>
    mbind (sleepM 1) (fun _ =>
      mbind (get_search_status id) (fun st =>
        if firstStatusStopped st then mpure () else pollLoop id n))

/-- Modelled from the spec: the blocking search helper `search_torrents`,
which is not part of the sources under `src/`.  It starts a search job,
polls its status (at most 30 polls, sleeping one interval before each
check), fetches the results exactly once, deletes the job unconditionally
(best-effort: a failure of the delete step is discarded), and returns the
fetched results. -/
def search_torrents (query plugins category : String) (limit : Option Int) : ClientM JValue :=
  mbind (start_search query plugins category) (fun startV =>
    match extractId startV with
    | none => throwE (QBErr.apiError "Search job id missing from start response")
    | some id =>
      mbind (pollLoop id 30) (fun _ =>
        mbind (get_search_results id limit none) (fun results =>
          mbind (tryIgnore (delete_search id)) (fun _ =>
            mpure results))))

/-- Modelled from the spec: the combined torrent-info operation
`get_torrent_info`, which is not part of the sources under `src/`.  It
fetches the torrent's properties and files, and returns the properties
object with the files list attached under a `files` key. -/
def get_torrent_info (hash : String) : ClientM JValue :=
  mbind (get_torrent_properties hash) (fun props =>
    mbind (get_torrent_files hash) (fun files =>
      match props with
      | JValue.jobj fields => mpure (JValue.jobj (fields ++ [("files", files)]))
      | _ => throwE (QBErr.apiError "Torrent properties response is not an object")))

/-- Modelled from the spec: the unified control operation `control_torrent`,
which is not part of the sources under `src/`.  It dispatches to
pause/resume/delete and fails with a validation error listing the valid
actions, without any network call, for any other action name. -/
def control_torrent (hashes action : String) (delete_files : Bool) : ClientM JValue :=
  if action = "pause" then pause_torrent hashes
  else if action = "resume" then resume_torrent hashes
  else if action = "delete" then delete_torrent hashes delete_files
  else throwE (QBErr.apiError
    ("Invalid action: " ++ action ++ ". Valid actions: pause, resume, delete"))

/-! The FastMCP tool layer (`qbittorrent_tools.py`).  Each tool wraps its
client call in `try`/`except Exception` and returns a uniform envelope:
the operation's data plus `success = True`, or `success = False` plus a
human-readable error string. -/

/-- The envelope a tool returns: the `success` marker plus the remaining
dictionary entries. -/
structure ToolResult where
  success : Bool
  fields : List (String × JValue)

/-- A tool body: run the client computation producing the success-payload
entries; convert any raised error into the failure envelope. -/
def runTool (m : ClientM (List (String × JValue))) (s : RunState) : ToolResult × RunState :=
  match m s with
  | (Except.ok fields, s1) => (⟨true, fields⟩, s1)
  | (Except.error e, s1) => (⟨false, [("error", JValue.jstr e.message)]⟩, s1)

/-- Computes `len(torrents)` on the decoded JSON list (the success branch of
`qb_list_torrents`; unreachable in the source, where the client call always
raises). -/
def jlen (v : JValue) : Int :=
  match v with
  | JValue.jarr xs => xs.length
  | _ => 0

/-- Embeds the tool `qb_list_torrents`: calls `qb_client.list_torrents`, a
method the client class does not define. -/
def qb_list_torrents (filter category : Option String) (s : RunState) : ToolResult × RunState :=
  runTool
    (mbind (missingMethodCall "list_torrents") (fun torrents =>
      mpure [("count", JValue.jnum (jlen torrents)), ("torrents", torrents)])) s

/-- Embeds the tool `qb_torrent_info`: calls `qb_client.get_torrent_info`, a
method the client class does not define. -/
def qb_torrent_info (hash : String) (s : RunState) : ToolResult × RunState :=
  runTool
    (mbind (missingMethodCall "get_torrent_info") (fun info =>
      mpure [("info", info)])) s

/-- Embeds the tool `qb_add_torrent`: calls `qb_client.add_torrent`. -/
def qb_add_torrent (url : String) (save_path category : Option String) (paused : Bool)
    (s : RunState) : ToolResult × RunState :=
  runTool
    (mbind (add_torrent (some url) save_path category paused) (fun result =>
      mpure [("message", JValue.jstr "Torrent added successfully"), ("result", result)])) s

/-- Embeds the tool `qb_control_torrent`: calls `qb_client.control_torrent`,
a method the client class does not define. -/
def qb_control_torrent (hash action : String) (delete_files : Bool)
    (s : RunState) : ToolResult × RunState :=
  runTool
    (mbind (missingMethodCall "control_torrent") (fun result =>
      mpure [("message", JValue.jstr ("Torrent " ++ action ++ " action completed successfully")),
             ("result", result)])) s

/-- Embeds the tool `qb_search_torrents`: calls `qb_client.search_torrents`,
a method the client class does not define. -/
def qb_search_torrents (query plugins category : String) (limit : Option Int)
    (s : RunState) : ToolResult × RunState :=
  runTool
    (mbind (missingMethodCall "search_torrents") (fun results =>
      mpure [("query", JValue.jstr query), ("results", results)])) s

/-- Embeds the tool `qb_get_preferences`: calls `qb_client.get_preferences`. -/
def qb_get_preferences (s : RunState) : ToolResult × RunState :=
  runTool
    (mbind get_preferences (fun prefs =>
      mpure [("preferences", prefs)])) s

/-! Session-level operations, for the state invariant: a trace applies
logins (with arbitrary network outcomes), closes, and `_request`-based
calls (with arbitrary scripts) in any order. -/

/-- One session-level operation on a client instance. -/
inductive SessionOp where
  | opLogin (o : LoginOutcome)
  | opClose
  | opRequest (method endpoint : String) (data params : List (String × FormVal))
      (script : List HttpOutcome)

/-- Applies one session-level operation to the client state. -/
def applyOp (cs : ClientState) : SessionOp → ClientState
  | SessionOp.opLogin o => (login cs o).2
  | SessionOp.opClose => close cs
  | SessionOp.opRequest m e d p script => (request m e d p ⟨cs, script, []⟩).2.cs

/-- The session invariant: whenever the authenticated flag is set, the
underlying HTTP session object is non-null. -/
def authInvB (cs : ClientState) : Bool := !cs.authenticated || cs.hasSession

/-- A client computation leaves the client-state fields (authenticated
flag, session handle) unchanged. -/
def PreservesCs {α : Type} (m : ClientM α) : Prop :=
  ∀ s : RunState, ((m s).2.cs = s.cs)

/-! Helper lemmas. -/

theorem strAppend_assoc (a b c : String) : (a ++ b) ++ c = a ++ (b ++ c) := by
  rcases a with ⟨la⟩; rcases b with ⟨lb⟩; rcases c with ⟨lc⟩
  show String.mk ((la ++ lb) ++ lc) = String.mk (la ++ (lb ++ lc))
  rw [List.append_assoc]

theorem strAppend_empty (a : String) : a ++ "" = a := by
  rcases a with ⟨la⟩
  show String.mk (la ++ []) = String.mk la
  rw [List.append_nil]

theorem request_cs (m e : String) (d p : List (String × FormVal)) :
    PreservesCs (request m e d p) := by
  intro s
  unfold request
  by_cases h : s.cs.authenticated = false
  · simp [h]
  · simp only [h, if_false]
    cases s.script with
    | nil => rfl
    | cons o rest =>
      cases o with
      | transport msg => rfl
      | resp status text json =>
        by_cases h4 : status = 403
        · simp [h4]
        · by_cases h5 : 400 ≤ status
          · simp [h4, h5]
          · cases json with
            | none => simp [h4, h5]
            | some v => simp [h4, h5]

theorem mpure_cs {α : Type} (a : α) : PreservesCs (mpure a) := fun _ => rfl

theorem throwE_cs {α : Type} (e : QBErr) : PreservesCs (throwE (α := α) e) := fun _ => rfl

theorem sleepM_cs (n : Nat) : PreservesCs (sleepM n) := fun _ => rfl

theorem tryIgnore_cs {α : Type} (m : ClientM α) (hm : PreservesCs m) :
    PreservesCs (tryIgnore m) := by
  intro s
  show ((m s).2.cs = s.cs)
  exact hm s

theorem mbind_cs {α β : Type} (x : ClientM α) (f : α → ClientM β)
    (hx : PreservesCs x) (hf : ∀ a, PreservesCs (f a)) : PreservesCs (mbind x f) := by
  intro s
  unfold mbind
  cases hxs : x s with
  | mk r s1 =>
    have h1 : s1.cs = s.cs := by
      have := hx s
      rw [hxs] at this
      exact this
    cases r with
    | ok a =>
      have := hf a s1
      simp only []
      rw [this, h1]
    | error e => exact h1

theorem pollLoop_cs (id : Int) (n : Nat) : PreservesCs (pollLoop id n) := by
  induction n with
  | zero => exact mpure_cs ()
  | succ k ih =>
    exact mbind_cs _ _ (sleepM_cs 1) (fun _ =>
      mbind_cs _ _ (request_cs _ _ _ _) (fun st => by
        by_cases h : firstStatusStopped st
        · simpa [pollLoop, h] using (mpure_cs (α := Unit) ())
        · simpa [pollLoop, h] using ih))

/-! Claim theorems. -/

/-- C4: for every method, endpoint, form data and query parameters, the
request primitive invoked while no session is active raises an
authentication error immediately, leaving the run state (in particular the
event log: zero network calls) unchanged. -/
theorem request_unauthenticated (method endpoint : String)
    (data params : List (String × FormVal)) (s : RunState)
    (h : s.cs.authenticated = false) :
    request method endpoint data params s =
      (Except.error (QBErr.authenticationError "Not authenticated. Call login() first."), s) := by
  unfold request
  simp [h]

/-- Witness for C4 at a concrete unauthenticated state. -/
theorem request_unauthenticated_witness :
    (RunState.mk initialClientState [] []).cs.authenticated = false ∧
    request "GET" "/api/v2/app/version" [] [] (RunState.mk initialClientState [] []) =
      (Except.error (QBErr.authenticationError "Not authenticated. Call login() first."),
       RunState.mk initialClientState [] []) :=
  ⟨rfl, request_unauthenticated "GET" "/api/v2/app/version" [] []
    (RunState.mk initialClientState [] []) rfl⟩

/-- C3: starting from an unauthenticated client, login succeeds exactly on
an HTTP 200 response whose body is the literal "Ok.", in which case the
session becomes active; every other response and every transport failure
raises an authentication error (never a generic API error) and leaves the
session inactive. -/
theorem login_spec (cs : ClientState) (o : LoginOutcome)
    (h : cs.authenticated = false) :
    ((login cs o).1 = Except.ok () ↔ o = LoginOutcome.resp 200 "Ok.") ∧
    ((login cs o).1 = Except.ok () → (login cs o).2.authenticated = true) ∧
    (∀ e, (login cs o).1 = Except.error e →
      (∃ m, e = QBErr.authenticationError m) ∧ (login cs o).2.authenticated = false) := by
  cases o with
  | transport m =>
    refine ⟨by simp [login], by simp [login], ?_⟩
    intro e he
    refine ⟨⟨"Connection error during authentication: " ++ m, ?_⟩, by simp [login, h]⟩
    simpa [login] using he.symm
  | resp status text =>
    by_cases h1 : status = 200
    · by_cases h2 : text = "Ok."
      · subst h1; subst h2
        refine ⟨by simp [login], by simp [login], ?_⟩
        intro e he
        simp [login] at he
      · refine ⟨by simp [login, h2], by simp [login, h2], ?_⟩
        intro e he
        refine ⟨⟨"Authentication failed: " ++ toString status ++ " - " ++ text, ?_⟩,
          by simp [login, h2, h]⟩
        simp [login, h2] at he
        exact he.symm
    · refine ⟨by simp [login, h1], by simp [login, h1], ?_⟩
      intro e he
      refine ⟨⟨"Authentication failed: " ++ toString status ++ " - " ++ text, ?_⟩,
        by simp [login, h1, h]⟩
      simp [login, h1] at he
      exact he.symm

/-- Witness for C3 at a concrete successful login and a concrete failing
login (status 200 with body "Fails."). -/
theorem login_spec_witness :
    initialClientState.authenticated = false ∧
    (login initialClientState (LoginOutcome.resp 200 "Ok.")).1 = Except.ok () ∧
    (login initialClientState (LoginOutcome.resp 200 "Ok.")).2.authenticated = true ∧
    ((login initialClientState (LoginOutcome.resp 200 "Fails.")).1 =
        Except.ok () ↔ LoginOutcome.resp 200 "Fails." = LoginOutcome.resp 200 "Ok.") ∧
    (∀ e, (login initialClientState (LoginOutcome.resp 200 "Fails.")).1 = Except.error e →
      (∃ m, e = QBErr.authenticationError m) ∧
      (login initialClientState (LoginOutcome.resp 200 "Fails.")).2.authenticated = false) :=
  ⟨rfl,
   by
    have h := (login_spec initialClientState (LoginOutcome.resp 200 "Ok.") rfl).1
    exact h.mpr rfl,
   by
    have h := (login_spec initialClientState (LoginOutcome.resp 200 "Ok.") rfl).2.1
    exact h (((login_spec initialClientState (LoginOutcome.resp 200 "Ok.") rfl).1).mpr rfl),
   (login_spec initialClientState (LoginOutcome.resp 200 "Fails.") rfl).1,
   (login_spec initialClientState (LoginOutcome.resp 200 "Fails.") rfl).2.2⟩

theorem applyOp_inv (cs : ClientState) (op : SessionOp) (h : authInvB cs = true) :
    authInvB (applyOp cs op) = true := by
  cases op with
  | opLogin o =>
    cases o with
    | transport m => simp [applyOp, login, authInvB]
    | resp status text =>
      simp only [applyOp, login]
      split <;> simp [authInvB]
  | opClose =>
    simp only [applyOp, close]
    split
    · rfl
    · exact h
  | opRequest m e d p script =>
    simp only [applyOp]
    rw [request_cs m e d p ⟨cs, script, []⟩]
    exact h

theorem foldl_applyOp_inv :
    ∀ (ops : List SessionOp) (cs : ClientState), authInvB cs = true →
      authInvB (List.foldl applyOp cs ops) = true
  | [], _, h => h
  | op :: ops, cs, h => foldl_applyOp_inv ops (applyOp cs op) (applyOp_inv cs op h)

theorem search_torrents_cs (q pl c : String) (lim : Option Int) :
    PreservesCs (search_torrents q pl c lim) := by
  unfold search_torrents
  apply mbind_cs _ _ (request_cs _ _ _ _)
  intro startV
  cases hid : extractId startV with
  | none =>
    simp only [hid]
    exact throwE_cs _
  | some id =>
    simp only [hid]
    exact mbind_cs _ _ (pollLoop_cs id 30) (fun _ =>
      mbind_cs _ _ (request_cs _ _ _ _) (fun results =>
        mbind_cs _ _ (tryIgnore_cs _ (request_cs _ _ _ _)) (fun _ => mpure_cs _)))

theorem get_torrent_info_cs (h : String) : PreservesCs (get_torrent_info h) := by
  unfold get_torrent_info
  apply mbind_cs _ _ (request_cs _ _ _ _)
  intro props
  apply mbind_cs _ _ (request_cs _ _ _ _)
  intro files
  cases props <;> first
    | exact mpure_cs _
    | exact throwE_cs _

theorem control_torrent_cs (h a : String) (df : Bool) : PreservesCs (control_torrent h a df) := by
  unfold control_torrent
  split
  · exact request_cs _ _ _ _
  · split
    · exact request_cs _ _ _ _
    · split
      · exact request_cs _ _ _ _
      · exact throwE_cs _

/-- C10: invariant on the client state — whenever the authenticated flag is
true the underlying HTTP session is non-null.  It holds initially and is
preserved by every trace of session-level operations (login with any
network outcome, close, and the request primitive with any script); and
every public client method, including the spec-modelled combined info,
unified control and blocking search helpers, leaves the client-state
fields untouched (they act on the world only through the request
primitive), so it is preserved by every operation. -/
theorem client_state_invariant :
    (authInvB initialClientState = true) ∧
    (∀ ops : List SessionOp, authInvB (List.foldl applyOp initialClientState ops) = true) ∧
    (∀ f c, PreservesCs (get_torrent_list f c)) ∧
    (∀ h, PreservesCs (get_torrent_properties h)) ∧
    (∀ h, PreservesCs (get_torrent_files h)) ∧
    (∀ u sp cat p, PreservesCs (add_torrent u sp cat p)) ∧
    (∀ h, PreservesCs (pause_torrent h)) ∧
    (∀ h, PreservesCs (resume_torrent h)) ∧
    (∀ h df, PreservesCs (delete_torrent h df)) ∧
    (∀ q pl c, PreservesCs (start_search q pl c)) ∧
    (∀ id, PreservesCs (get_search_status id)) ∧
    (∀ id lim off, PreservesCs (get_search_results id lim off)) ∧
    (∀ id, PreservesCs (stop_search id)) ∧
    (∀ id, PreservesCs (delete_search id)) ∧
    PreservesCs get_preferences ∧
    PreservesCs get_version ∧
    (∀ q pl c lim, PreservesCs (search_torrents q pl c lim)) ∧
    (∀ h, PreservesCs (get_torrent_info h)) ∧
    (∀ h a df, PreservesCs (control_torrent h a df)) :=
  ⟨rfl,
   fun ops => foldl_applyOp_inv ops initialClientState rfl,
   fun _ _ => request_cs _ _ _ _,
   fun _ => request_cs _ _ _ _,
   fun _ => request_cs _ _ _ _,
   fun _ _ _ _ => request_cs _ _ _ _,
   fun _ => request_cs _ _ _ _,
   fun _ => request_cs _ _ _ _,
   fun _ _ => request_cs _ _ _ _,
   fun _ _ _ => request_cs _ _ _ _,
   fun _ => request_cs _ _ _ _,
   fun _ _ _ => request_cs _ _ _ _,
   fun _ => request_cs _ _ _ _,
   fun _ => request_cs _ _ _ _,
   request_cs _ _ _ _,
   request_cs _ _ _ _,
   search_torrents_cs,
   get_torrent_info_cs,
   control_torrent_cs⟩

theorem request_post_state (m e : String) (d p : List (String × FormVal))
    (cs : ClientState) (hauth : cs.authenticated = true)
    (o : HttpOutcome) (rest : List HttpOutcome) (events : List Event) :
    (request m e d p ⟨cs, o :: rest, events⟩).2 =
      ⟨cs, rest, events ++ [Event.call ⟨m, e, d, p⟩]⟩ := by
  unfold request
  simp only [hauth]
  cases o with
  | transport msg => simp
  | resp status text json =>
    by_cases h4 : status = 403
    · simp [h4]
    · by_cases h5 : 400 ≤ status
      · simp [h4, h5]
      · cases json with
        | none => simp [h4, h5]
        | some v => simp [h4, h5]

/-- C5: for a request issued with an active session, an HTTP 403 response
raises an authentication error regardless of endpoint or method (no
re-login is attempted: the run state after the call holds the original
client state and exactly one more network call); any other status ≥ 400
raises an API error whose message contains the status code and the
response body text; and a transport-level error raises a generic API error
wrapping the underlying cause. -/
theorem request_http_errors (method endpoint : String)
    (data params : List (String × FormVal)) (cs : ClientState)
    (status : Nat) (text m : String) (json : Option JValue)
    (rest : List HttpOutcome) (events : List Event)
    (hauth : cs.authenticated = true) :
    (request method endpoint data params ⟨cs, HttpOutcome.resp 403 text json :: rest, events⟩ =
      (Except.error (QBErr.authenticationError "Authentication token expired or invalid"),
       ⟨cs, rest, events ++ [Event.call ⟨method, endpoint, data, params⟩]⟩)) ∧
    (400 ≤ status → status ≠ 403 →
      ∃ msg,
        request method endpoint data params
            ⟨cs, HttpOutcome.resp status text json :: rest, events⟩ =
          (Except.error (QBErr.apiError msg),
           ⟨cs, rest, events ++ [Event.call ⟨method, endpoint, data, params⟩]⟩) ∧
        (∃ a b, msg = a ++ (toString status ++ b)) ∧
        (∃ a b, msg = a ++ (text ++ b))) ∧
    (request method endpoint data params ⟨cs, HttpOutcome.transport m :: rest, events⟩ =
      (Except.error (QBErr.apiError ("Request error: " ++ m)),
       ⟨cs, rest, events ++ [Event.call ⟨method, endpoint, data, params⟩]⟩)) := by
  refine ⟨?_, ?_, ?_⟩
  · unfold request
    simp [hauth]
  · intro h4 h43
    refine ⟨"API request failed: " ++ toString status ++ " - " ++ text, ?_, ?_, ?_⟩
    · unfold request
      simp [hauth, h4, h43]
    · refine ⟨"API request failed: ", " - " ++ text, ?_⟩
      rw [← strAppend_assoc, ← strAppend_assoc]
    · refine ⟨"API request failed: " ++ toString status ++ " - ", "", ?_⟩
      rw [strAppend_empty]
  · unfold request
    simp [hauth]

/-- Witness for C5 at a concrete state: a 403 response, a 500 response with
body "boom" (the message contains "500" and "boom"), and a transport
failure. -/
theorem request_http_errors_witness :
    (ClientState.mk true true).authenticated = true ∧
    (request "GET" "/api/v2/torrents/info" [] []
        ⟨ClientState.mk true true, [HttpOutcome.resp 403 "" none], []⟩ =
      (Except.error (QBErr.authenticationError "Authentication token expired or invalid"),
       ⟨ClientState.mk true true, [],
        [Event.call ⟨"GET", "/api/v2/torrents/info", [], []⟩]⟩)) ∧
    (∃ msg,
      request "GET" "/api/v2/torrents/info" [] []
          ⟨ClientState.mk true true, [HttpOutcome.resp 500 "boom" none], []⟩ =
        (Except.error (QBErr.apiError msg),
         ⟨ClientState.mk true true, [],
          [Event.call ⟨"GET", "/api/v2/torrents/info", [], []⟩]⟩) ∧
      (∃ a b, msg = a ++ (toString 500 ++ b)) ∧
      (∃ a b, msg = a ++ ("boom" ++ b))) :=
  ⟨rfl,
   (request_http_errors "GET" "/api/v2/torrents/info" [] []
      (ClientState.mk true true) 500 "" "x" none [] [] rfl).1,
   (request_http_errors "GET" "/api/v2/torrents/info" [] []
      (ClientState.mk true true) 500 "boom" "x" none [] [] rfl).2.1
     (by decide) (by decide)⟩

theorem lookup_append {α β : Type} [BEq α] (k : α) (xs ys : List (α × β)) :
    List.lookup k (xs ++ ys) =
      match List.lookup k xs with
      | some v => some v
      | none => List.lookup k ys := by
  induction xs with
  | nil => rfl
  | cons hd tl ih =>
    rcases hd with ⟨a, b⟩
    cases h : k == a <;> simp [List.lookup, h, ih]

theorem lookup_optStrEntry (key : String) (v : Option String) :
    List.lookup key (optStrEntry key v) =
      match v with
      | none => none
      | some x => if x = "" then none else some (FormVal.s x) := by
  rcases v with _ | x
  · rfl
  · by_cases hx : x = "" <;> simp [optStrEntry, hx, List.lookup]

theorem lookup_optStrEntry_ne (k key : String) (h : (k == key) = false)
    (v : Option String) : List.lookup k (optStrEntry key v) = none := by
  rcases v with _ | x
  · rfl
  · by_cases hx : x = "" <;> simp [optStrEntry, hx, List.lookup, h]

theorem optStrEntry_no_empty (key : String) (v : Option String) :
    ∀ kv ∈ optStrEntry key v, kv.2 ≠ FormVal.s "" := by
  intro kv hkv
  rcases v with _ | x
  · simp [optStrEntry] at hkv
  · by_cases hx : x = ""
    · simp [optStrEntry, hx] at hkv
    · simp only [optStrEntry, if_neg hx, List.mem_singleton] at hkv
      subst hkv
      simp [hx]

/-- C9: optional-parameter filtering.  In the request construction of the
public operations, an optional string parameter whose value is absent
(`None`) or empty is excluded entirely (its key does not occur); the
integer `limit`/`offset` keys of the search-results call are excluded
exactly when absent; the `paused` flag is sent as the literal string
"true" only when set; `deleteFiles` is always sent as exactly one of the
literal strings "true"/"false"; and no request ever carries an
empty-string value. -/
theorem optional_param_filtering (f c u sp cat : Option String) (p : Bool)
    (hs : String) (df : Bool) (id : Int) (lim off : Option Int) :
    (List.lookup "filter" (torrentListParams f c) = none ↔ (f = none ∨ f = some "")) ∧
    (List.lookup "category" (torrentListParams f c) = none ↔ (c = none ∨ c = some "")) ∧
    (List.lookup "urls" (addTorrentData u sp cat p) = none ↔ (u = none ∨ u = some "")) ∧
    (List.lookup "savepath" (addTorrentData u sp cat p) = none ↔ (sp = none ∨ sp = some "")) ∧
    (List.lookup "category" (addTorrentData u sp cat p) = none ↔ (cat = none ∨ cat = some "")) ∧
    (List.lookup "paused" (addTorrentData u sp cat p) =
      if p then some (FormVal.s "true") else none) ∧
    (List.lookup "deleteFiles" (deleteTorrentData hs df) =
      some (FormVal.s (if df then "true" else "false"))) ∧
    (List.lookup "limit" (searchResultsParams id lim off) = Option.map FormVal.i lim) ∧
    (List.lookup "offset" (searchResultsParams id lim off) = Option.map FormVal.i off) ∧
    (∀ kv ∈ torrentListParams f c, kv.2 ≠ FormVal.s "") ∧
    (∀ kv ∈ addTorrentData u sp cat p, kv.2 ≠ FormVal.s "") := by
  refine ⟨?_, ?_, ?_, ?_, ?_, ?_, ?_, ?_, ?_, ?_, ?_⟩
  · rw [torrentListParams, lookup_append, lookup_optStrEntry,
      lookup_optStrEntry_ne "filter" "category" (by decide)]
    rcases f with _ | x
    · simp
    · by_cases hx : x = "" <;> simp [hx]
  · rw [torrentListParams, lookup_append, lookup_optStrEntry,
      lookup_optStrEntry_ne "category" "filter" (by decide)]
    rcases c with _ | y
    · rcases f with _ | x <;> simp
    · by_cases hy : y = "" <;> rcases f with _ | x <;> simp [hy]
  · rw [addTorrentData, lookup_append, lookup_append, lookup_append,
      lookup_optStrEntry,
      lookup_optStrEntry_ne "urls" "savepath" (by decide),
      lookup_optStrEntry_ne "urls" "category" (by decide)]
    rcases u with _ | x
    · cases p <;> simp [List.lookup]
    · by_cases hx : x = "" <;> cases p <;> simp [hx, List.lookup]
  · rw [addTorrentData, lookup_append, lookup_append, lookup_append,
      lookup_optStrEntry,
      lookup_optStrEntry_ne "savepath" "urls" (by decide),
      lookup_optStrEntry_ne "savepath" "category" (by decide)]
    rcases sp with _ | y
    · cases p <;> simp [List.lookup]
    · by_cases hy : y = "" <;> cases p <;> simp [hy, List.lookup]
  · rw [addTorrentData, lookup_append, lookup_append, lookup_append,
      lookup_optStrEntry,
      lookup_optStrEntry_ne "category" "urls" (by decide),
      lookup_optStrEntry_ne "category" "savepath" (by decide)]
    rcases cat with _ | z
    · cases p <;> simp [List.lookup]
    · by_cases hz : z = "" <;> cases p <;> simp [hz, List.lookup]
  · rw [addTorrentData, lookup_append, lookup_append, lookup_append,
      lookup_optStrEntry_ne "paused" "urls" (by decide),
      lookup_optStrEntry_ne "paused" "savepath" (by decide),
      lookup_optStrEntry_ne "paused" "category" (by decide)]
    cases p <;> simp [List.lookup]
  · cases df <;> simp [deleteTorrentData, List.lookup]
  · rcases lim with _ | l <;> rcases off with _ | o <;>
      simp [searchResultsParams, List.lookup]
  · rcases lim with _ | l <;> rcases off with _ | o <;>
      simp [searchResultsParams, List.lookup]
  · intro kv hkv
    rcases List.mem_append.mp hkv with h | h
    · exact optStrEntry_no_empty _ _ kv h
    · exact optStrEntry_no_empty _ _ kv h
  · intro kv hkv
    rcases List.mem_append.mp hkv with h | h
    · rcases List.mem_append.mp h with h2 | h2
      · rcases List.mem_append.mp h2 with h3 | h3
        · exact optStrEntry_no_empty _ _ kv h3
        · exact optStrEntry_no_empty _ _ kv h3
      · exact optStrEntry_no_empty _ _ kv h2
    · cases p with
      | false => simp at h
      | true =>
        simp at h
        subst h
        simp

/-- C1: the four tools `qb_list_torrents`, `qb_torrent_info`,
`qb_control_torrent` and `qb_search_torrents` each call a client method
(`list_torrents`, `get_torrent_info`, `control_torrent`,
`search_torrents`) that the `QBittorrentClient` class does not define, so
for every invocation they return the failure envelope (`success = false`
plus an error string); of the six registered tools only `qb_add_torrent`
and `qb_get_preferences` can return `success = true`, witnessed here by
concrete runs. -/
theorem broken_tools_always_fail :
    (qbittorrentClientMethods.contains "list_torrents" = false) ∧
    (qbittorrentClientMethods.contains "get_torrent_info" = false) ∧
    (qbittorrentClientMethods.contains "control_torrent" = false) ∧
    (qbittorrentClientMethods.contains "search_torrents" = false) ∧
    (∀ f c s, ∃ m, (qb_list_torrents f c s).1 =
      ⟨false, [("error", JValue.jstr m)]⟩) ∧
    (∀ h s, ∃ m, (qb_torrent_info h s).1 =
      ⟨false, [("error", JValue.jstr m)]⟩) ∧
    (∀ h a df s, ∃ m, (qb_control_torrent h a df s).1 =
      ⟨false, [("error", JValue.jstr m)]⟩) ∧
    (∀ q pl c lim s, ∃ m, (qb_search_torrents q pl c lim s).1 =
      ⟨false, [("error", JValue.jstr m)]⟩) ∧
    (∃ s, (qb_add_torrent "magnet:?xt=test" none none false s).1.success = true) ∧
    (∃ s, (qb_get_preferences s).1.success = true) :=
  ⟨by decide, by decide, by decide, by decide,
   fun _ _ _ => ⟨_, rfl⟩,
   fun _ _ => ⟨_, rfl⟩,
   fun _ _ _ _ => ⟨_, rfl⟩,
   fun _ _ _ _ _ => ⟨_, rfl⟩,
   ⟨⟨⟨true, true⟩, [HttpOutcome.resp 200 "Ok." none], []⟩, rfl⟩,
   ⟨⟨⟨true, true⟩, [HttpOutcome.resp 200 "{}" (some (JValue.jobj []))], []⟩, rfl⟩⟩

/-- A tool output is a uniform envelope: either `success = true` (with the
operation's data in the remaining fields), or `success = false` with a
single human-readable error string. -/
def envelopeOk (r : ToolResult) : Prop :=
  (r.success = true) ∨ (r.success = false ∧ ∃ m, r.fields = [("error", JValue.jstr m)])

theorem runTool_envelope (m : ClientM (List (String × JValue))) (s : RunState) :
    envelopeOk (runTool m s).1 := by
  unfold runTool envelopeOk
  rcases hms : m s with ⟨r, s1⟩
  cases r with
  | ok fields => exact Or.inl rfl
  | error e => exact Or.inr ⟨rfl, e.message, rfl⟩

/-- C6: every one of the six exposed tool operations, for every input and
every run state (hence regardless of whether the underlying client call
raises), returns the uniform envelope: the operation's data plus
`success = true`, or `success = false` plus a human-readable error string.
The tools are total functions into `ToolResult`, embedding the
`try`/`except Exception` wrapper: no exception crosses the boundary. -/
theorem tool_envelope_uniform (f c sp cat : Option String) (p df : Bool)
    (h u a q pl c2 : String) (lim : Option Int) (s1 s2 s3 s4 s5 s6 : RunState) :
    envelopeOk (qb_list_torrents f c s1).1 ∧
    envelopeOk (qb_torrent_info h s2).1 ∧
    envelopeOk (qb_add_torrent u sp cat p s3).1 ∧
    envelopeOk (qb_control_torrent h a df s4).1 ∧
    envelopeOk (qb_search_torrents q pl c2 lim s5).1 ∧
    envelopeOk (qb_get_preferences s6).1 :=
  ⟨runTool_envelope _ _, runTool_envelope _ _, runTool_envelope _ _,
   runTool_envelope _ _, runTool_envelope _ _, runTool_envelope _ _⟩

/-- C8: the unified control operation with action "pause" (respectively
"resume", "delete") issues exactly one call to the corresponding endpoint
with the given hashes (for delete, with the `deleteFiles` literal); for
any action name outside {pause, resume, delete} it fails with an API error
whose message lists the valid actions, leaving the run state untouched
(zero network calls). -/
theorem control_torrent_dispatch (hashes action : String) (df : Bool)
    (cs : ClientState) (o : HttpOutcome) (rest : List HttpOutcome)
    (events : List Event) (hauth : cs.authenticated = true) :
    (∃ res, control_torrent hashes "pause" df ⟨cs, o :: rest, events⟩ =
      (res, ⟨cs, rest, events ++
        [Event.call ⟨"POST", "/api/v2/torrents/pause", [("hashes", FormVal.s hashes)], []⟩]⟩)) ∧
    (∃ res, control_torrent hashes "resume" df ⟨cs, o :: rest, events⟩ =
      (res, ⟨cs, rest, events ++
        [Event.call ⟨"POST", "/api/v2/torrents/resume", [("hashes", FormVal.s hashes)], []⟩]⟩)) ∧
    (∃ res, control_torrent hashes "delete" df ⟨cs, o :: rest, events⟩ =
      (res, ⟨cs, rest, events ++
        [Event.call ⟨"POST", "/api/v2/torrents/delete", deleteTorrentData hashes df, []⟩]⟩)) ∧
    (action ≠ "pause" → action ≠ "resume" → action ≠ "delete" →
      control_torrent hashes action df ⟨cs, o :: rest, events⟩ =
        (Except.error (QBErr.apiError
          ("Invalid action: " ++ action ++ ". Valid actions: pause, resume, delete")),
         ⟨cs, o :: rest, events⟩) ∧
      (∃ a b, ("Invalid action: " ++ action ++ ". Valid actions: pause, resume, delete") =
        a ++ ("pause, resume, delete" ++ b))) := by
  refine ⟨?_, ?_, ?_, ?_⟩
  · refine ⟨(pause_torrent hashes ⟨cs, o :: rest, events⟩).1, ?_⟩
    show pause_torrent hashes ⟨cs, o :: rest, events⟩ = _
    rw [← request_post_state "POST" "/api/v2/torrents/pause"
      [("hashes", FormVal.s hashes)] [] cs hauth o rest events]
    exact Prod.mk.eta.symm
  · refine ⟨(resume_torrent hashes ⟨cs, o :: rest, events⟩).1, ?_⟩
    show resume_torrent hashes ⟨cs, o :: rest, events⟩ = _
    rw [← request_post_state "POST" "/api/v2/torrents/resume"
      [("hashes", FormVal.s hashes)] [] cs hauth o rest events]
    exact Prod.mk.eta.symm
  · refine ⟨(delete_torrent hashes df ⟨cs, o :: rest, events⟩).1, ?_⟩
    show delete_torrent hashes df ⟨cs, o :: rest, events⟩ = _
    rw [← request_post_state "POST" "/api/v2/torrents/delete"
      (deleteTorrentData hashes df) [] cs hauth o rest events]
    exact Prod.mk.eta.symm
  · intro h1 h2 h3
    refine ⟨by simp [control_torrent, h1, h2, h3, throwE], ?_⟩
    refine ⟨("Invalid action: " ++ action) ++ ". Valid actions: ", "", ?_⟩
    rw [strAppend_empty, strAppend_assoc ("Invalid action: " ++ action)
      ". Valid actions: " "pause, resume, delete"]
    rfl

/-- Witness for C8 at concrete inputs: an authenticated state, one scripted
response, and the invalid action "invalid". -/
theorem control_torrent_dispatch_witness :
    (ClientState.mk true true).authenticated = true ∧
    (∃ res, control_torrent "abc" "pause" false
        ⟨ClientState.mk true true, [HttpOutcome.resp 200 "" none], []⟩ =
      (res, ⟨ClientState.mk true true, [],
        [Event.call ⟨"POST", "/api/v2/torrents/pause", [("hashes", FormVal.s "abc")], []⟩]⟩)) ∧
    ("invalid" ≠ "pause" → "invalid" ≠ "resume" → "invalid" ≠ "delete" →
      control_torrent "abc" "invalid" false
          ⟨ClientState.mk true true, [HttpOutcome.resp 200 "" none], []⟩ =
        (Except.error (QBErr.apiError
          ("Invalid action: " ++ "invalid" ++ ". Valid actions: pause, resume, delete")),
         ⟨ClientState.mk true true, [HttpOutcome.resp 200 "" none], []⟩) ∧
      (∃ a b, ("Invalid action: " ++ "invalid" ++ ". Valid actions: pause, resume, delete") =
        a ++ ("pause, resume, delete" ++ b))) :=
  ⟨rfl,
   (control_torrent_dispatch "abc" "invalid" false (ClientState.mk true true)
      (HttpOutcome.resp 200 "" none) [] [] rfl).1,
   (control_torrent_dispatch "abc" "invalid" false (ClientState.mk true true)
      (HttpOutcome.resp 200 "" none) [] [] rfl).2.2.2⟩

/-- An HTTP 200 response whose body is the given JSON value. -/
def jsonOk (v : JValue) : HttpOutcome := HttpOutcome.resp 200 "" (some v)

/-- C7: for every hash, the combined torrent-info operation issues exactly
two client requests — one to torrents/properties and one to torrents/files,
each carrying the hash — and returns an object holding all fields of the
properties response plus a `files` key holding the files list. -/
theorem get_torrent_info_merges (hash : String) (cs : ClientState)
    (propsFields : List (String × JValue)) (filesV : JValue)
    (rest : List HttpOutcome) (events : List Event)
    (hauth : cs.authenticated = true) :
    get_torrent_info hash
        ⟨cs, jsonOk (JValue.jobj propsFields) :: jsonOk filesV :: rest, events⟩ =
      (Except.ok (JValue.jobj (propsFields ++ [("files", filesV)])),
       ⟨cs, rest, events ++
         [Event.call ⟨"GET", "/api/v2/torrents/properties", [], [("hash", FormVal.s hash)]⟩,
          Event.call ⟨"GET", "/api/v2/torrents/files", [], [("hash", FormVal.s hash)]⟩]⟩) := by
  simp [get_torrent_info, mbind, mpure, get_torrent_properties, get_torrent_files,
    jsonOk, request, hauth]

/-- Witness for C7 at a concrete hash, properties object and files list. -/
theorem get_torrent_info_merges_witness :
    (ClientState.mk true true).authenticated = true ∧
    get_torrent_info "abc"
        ⟨ClientState.mk true true,
         jsonOk (JValue.jobj [("save_path", JValue.jstr "/downloads")]) ::
           jsonOk (JValue.jarr [JValue.jstr "file1"]) :: [], []⟩ =
      (Except.ok (JValue.jobj [("save_path", JValue.jstr "/downloads"),
          ("files", JValue.jarr [JValue.jstr "file1"])]),
       ⟨ClientState.mk true true, [],
        [Event.call ⟨"GET", "/api/v2/torrents/properties", [], [("hash", FormVal.s "abc")]⟩,
         Event.call ⟨"GET", "/api/v2/torrents/files", [], [("hash", FormVal.s "abc")]⟩]⟩) :=
  ⟨rfl,
   get_torrent_info_merges "abc" (ClientState.mk true true)
     [("save_path", JValue.jstr "/downloads")] (JValue.jarr [JValue.jstr "file1"]) [] [] rfl⟩

/-- The event of one status poll of a search job. -/
def statusCall (id : Int) : Event :=
  Event.call ⟨"GET", "/api/v2/search/status", [], [("id", FormVal.i id)]⟩

/-- The event of starting a search job. -/
def startCall (pattern plugins category : String) : Event :=
  Event.call ⟨"POST", "/api/v2/search/start",
    [("pattern", FormVal.s pattern), ("plugins", FormVal.s plugins),
     ("category", FormVal.s category)], []⟩

/-- The event of fetching search results. -/
def resultsCall (id : Int) (limit offset : Option Int) : Event :=
  Event.call ⟨"GET", "/api/v2/search/results", [], searchResultsParams id limit offset⟩

/-- The event of deleting a search job. -/
def deleteCall (id : Int) : Event :=
  Event.call ⟨"POST", "/api/v2/search/delete", [("id", FormVal.i id)], []⟩

/-- The event trace of `n` poll iterations: each one sleep then one status
call. -/
def pollEvents (id : Int) : Nat → List Event
  | 0 => []
  | n + 1 => Event.sleepFor 1 :: statusCall id :: pollEvents id n

theorem pollLoop_step_running (id : Int) (sv : JValue)
    (hsv : firstStatusStopped sv = false) (cs : ClientState)
    (hauth : cs.authenticated = true) (n : Nat)
    (script : List HttpOutcome) (events : List Event) :
    pollLoop id (n + 1) ⟨cs, jsonOk sv :: script, events⟩ =
      pollLoop id n ⟨cs, script, events ++ [Event.sleepFor 1, statusCall id]⟩ := by
  simp [pollLoop, mbind, sleepM, get_search_status, request, jsonOk, hauth, hsv,
    statusCall, List.append_assoc]

theorem pollLoop_step_stopped (id : Int) (sv : JValue)
    (hsv : firstStatusStopped sv = true) (cs : ClientState)
    (hauth : cs.authenticated = true) (n : Nat)
    (script : List HttpOutcome) (events : List Event) :
    pollLoop id (n + 1) ⟨cs, jsonOk sv :: script, events⟩ =
      (Except.ok (), ⟨cs, script, events ++ [Event.sleepFor 1, statusCall id]⟩) := by
  simp [pollLoop, mbind, mpure, sleepM, get_search_status, request, jsonOk, hauth, hsv,
    statusCall, List.append_assoc]

theorem pollLoop_all_running (id : Int) (sv : JValue)
    (hsv : firstStatusStopped sv = false) (cs : ClientState)
    (hauth : cs.authenticated = true) :
    ∀ (n : Nat) (script : List HttpOutcome) (events : List Event),
      pollLoop id n ⟨cs, List.replicate n (jsonOk sv) ++ script, events⟩ =
        (Except.ok (), ⟨cs, script, events ++ pollEvents id n⟩) := by
  intro n
  induction n with
  | zero =>
    intro script events
    simp [pollLoop, mpure, pollEvents]
  | succ k ih =>
    intro script events
    rw [List.replicate_succ, List.cons_append,
      pollLoop_step_running id sv hsv cs hauth k, ih]
    simp [pollEvents, List.append_assoc]

/-- C2: the blocking search helper performs the sequential workflow: start
the job; poll its status, sleeping one fixed interval before each check,
stopping at the first status entry whose `status` equals `Stopped` or
after at most 30 polls, with no error when the ceiling is hit; then fetch
the results exactly once; then delete the job unconditionally; and return
the fetched results.  Part one: with status sequence [Running, Running,
Stopped] exactly 3 polls are issued, then one results fetch, then one
delete, for an arbitrary delete outcome `dOut` (in particular a failure),
which never alters the returned results.  Part two: with a status that
never reports `Stopped`, exactly 30 polls are issued and the helper still
fetches, deletes and returns the results without error. -/
theorem search_torrents_workflow (q pl c : String) (lim : Option Int)
    (cs : ClientState) (events : List Event)
    (startV s1 s2 s3 resultsV : JValue) (dOut : HttpOutcome) (id : Int)
    (hauth : cs.authenticated = true) (hid : extractId startV = some id)
    (h1 : firstStatusStopped s1 = false) (h2 : firstStatusStopped s2 = false)
    (h3 : firstStatusStopped s3 = true) :
    (search_torrents q pl c lim
        ⟨cs, [jsonOk startV, jsonOk s1, jsonOk s2, jsonOk s3, jsonOk resultsV, dOut],
         events⟩ =
      (Except.ok resultsV,
       ⟨cs, [], events ++
         [startCall q pl c, Event.sleepFor 1, statusCall id, Event.sleepFor 1, statusCall id,
          Event.sleepFor 1, statusCall id, resultsCall id lim none, deleteCall id]⟩)) ∧
    (search_torrents q pl c lim
        ⟨cs, jsonOk startV :: (List.replicate 30 (jsonOk s1) ++ [jsonOk resultsV, dOut]),
         events⟩ =
      (Except.ok resultsV,
       ⟨cs, [], events ++
         (startCall q pl c :: (pollEvents id 30 ++ [resultsCall id lim none, deleteCall id]))⟩)) := by
  have hres : ∀ E, get_search_results id lim none ⟨cs, [jsonOk resultsV, dOut], E⟩ =
      (Except.ok resultsV, ⟨cs, [dOut], E ++ [resultsCall id lim none]⟩) := by
    intro E
    simp [get_search_results, request, jsonOk, hauth, resultsCall]
  have htry : ∀ E, tryIgnore (delete_search id) ⟨cs, [dOut], E⟩ =
      (Except.ok (), ⟨cs, [], E ++ [deleteCall id]⟩) := by
    intro E
    show (Except.ok (),
      (request "POST" "/api/v2/search/delete" [("id", FormVal.i id)] []
        ⟨cs, [dOut], E⟩).2) = _
    rw [request_post_state "POST" "/api/v2/search/delete" [("id", FormVal.i id)] []
      cs hauth dOut [] E]
    simp [deleteCall]
  constructor
  · have hstart : start_search q pl c
        ⟨cs, [jsonOk startV, jsonOk s1, jsonOk s2, jsonOk s3, jsonOk resultsV, dOut],
         events⟩ =
        (Except.ok startV,
         ⟨cs, [jsonOk s1, jsonOk s2, jsonOk s3, jsonOk resultsV, dOut],
          events ++ [startCall q pl c]⟩) := by
      simp [start_search, request, jsonOk, hauth, startCall]
    have hpoll : pollLoop id 30
        ⟨cs, [jsonOk s1, jsonOk s2, jsonOk s3, jsonOk resultsV, dOut],
         events ++ [startCall q pl c]⟩ =
        (Except.ok (),
         ⟨cs, [jsonOk resultsV, dOut],
          (events ++ [startCall q pl c]) ++ [Event.sleepFor 1, statusCall id,
            Event.sleepFor 1, statusCall id, Event.sleepFor 1, statusCall id]⟩) := by
      rw [(show (30 : Nat) = 29 + 1 from rfl),
        pollLoop_step_running id s1 h1 cs hauth 29,
        (show (29 : Nat) = 28 + 1 from rfl),
        pollLoop_step_running id s2 h2 cs hauth 28,
        (show (28 : Nat) = 27 + 1 from rfl),
        pollLoop_step_stopped id s3 h3 cs hauth 27]
      simp [List.append_assoc]
    simp only [search_torrents, mbind, hstart, hid, hpoll, hres, htry, mpure]
    simp [List.append_assoc]
  · have hstart : start_search q pl c
        ⟨cs, jsonOk startV :: (List.replicate 30 (jsonOk s1) ++ [jsonOk resultsV, dOut]),
         events⟩ =
        (Except.ok startV,
         ⟨cs, List.replicate 30 (jsonOk s1) ++ [jsonOk resultsV, dOut],
          events ++ [startCall q pl c]⟩) := by
      simp [start_search, request, jsonOk, hauth, startCall]
    have hpoll : pollLoop id 30
        ⟨cs, List.replicate 30 (jsonOk s1) ++ [jsonOk resultsV, dOut],
         events ++ [startCall q pl c]⟩ =
        (Except.ok (),
         ⟨cs, [jsonOk resultsV, dOut],
          (events ++ [startCall q pl c]) ++ pollEvents id 30⟩) :=
      pollLoop_all_running id s1 h1 cs hauth 30 [jsonOk resultsV, dOut]
        (events ++ [startCall q pl c])
    simp only [search_torrents, mbind, hstart, hid, hpoll, hres, htry, mpure]
    simp [List.append_assoc]

/-- Witness for C2 at concrete inputs: job id 7, running and stopped
status arrays, a concrete results object, and a failing delete call
(transport error), for both the 3-poll and the 30-poll scenario. -/
theorem search_torrents_workflow_witness :
    ((ClientState.mk true true).authenticated = true ∧
     extractId (JValue.jobj [("id", JValue.jnum 7)]) = some 7 ∧
     firstStatusStopped (JValue.jarr [JValue.jobj [("status", JValue.jstr "Running")]]) = false ∧
     firstStatusStopped (JValue.jarr [JValue.jobj [("status", JValue.jstr "Stopped")]]) = true) ∧
    (search_torrents "ubuntu" "all" "all" (some 100)
        ⟨ClientState.mk true true,
         [jsonOk (JValue.jobj [("id", JValue.jnum 7)]),
          jsonOk (JValue.jarr [JValue.jobj [("status", JValue.jstr "Running")]]),
          jsonOk (JValue.jarr [JValue.jobj [("status", JValue.jstr "Running")]]),
          jsonOk (JValue.jarr [JValue.jobj [("status", JValue.jstr "Stopped")]]),
          jsonOk (JValue.jobj [("results", JValue.jarr []), ("total", JValue.jnum 0)]),
          HttpOutcome.transport "connection reset"],
         []⟩ =
      (Except.ok (JValue.jobj [("results", JValue.jarr []), ("total", JValue.jnum 0)]),
       ⟨ClientState.mk true true, [],
        [] ++
         [startCall "ubuntu" "all" "all", Event.sleepFor 1, statusCall 7, Event.sleepFor 1,
          statusCall 7, Event.sleepFor 1, statusCall 7, resultsCall 7 (some 100) none,
          deleteCall 7]⟩)) :=
  ⟨⟨rfl, rfl, rfl, rfl⟩,
   (search_torrents_workflow "ubuntu" "all" "all" (some 100) (ClientState.mk true true) []
     (JValue.jobj [("id", JValue.jnum 7)])
     (JValue.jarr [JValue.jobj [("status", JValue.jstr "Running")]])
     (JValue.jarr [JValue.jobj [("status", JValue.jstr "Running")]])
     (JValue.jarr [JValue.jobj [("status", JValue.jstr "Stopped")]])
     (JValue.jobj [("results", JValue.jarr []), ("total", JValue.jnum 0)])
     (HttpOutcome.transport "connection reset") 7 rfl rfl rfl rfl rfl).1⟩

end McpQB
